import Mathlib

/-!
Formal model of `multilingual_t5/tasks.py` (repository AokiMasataka/multilingual-t5).

The module is load-time configuration: it registers ~150 tasks and 9 mixtures
against the external `t5.data` registries, installs a Japanese tokenizer into
sacrebleu's shared `TOKENIZERS` table, and defines one custom metric `bleu`.
We embed the registration sequence, the name templating, the rate function and
the `bleu` metric, and prove the data-integrity properties claimed of them.

External language lists that are not part of this repository's source
(`MC4_LANGS` comes from `tensorflow_datasets`; `PAWSX_LANGS`,
`XQUAD_LANGS_TRAIN_DEV` and `XQUAD_LANGS_TEST` come from the repository's
`utils` module, which is not in the sources at hand) are treated as
parameters throughout.
-/

/-! ## The mixture-rate function (tasks.py lines 29-31) -/

/-- `DEFAULT_TEMPERATURE = 1.0 / 0.3` (tasks.py line 29). -/
noncomputable def DEFAULT_TEMPERATURE : ℝ := 1.0 / 0.3

/-- Modelled from the spec: `t5.data.utils.rate_num_examples` is external to
this repository; the spec's contract is "given a task's example count `n` and
a temperature `T`, returns a sampling weight proportional to `n^(1/T)`". -/
noncomputable def rate_num_examples (numExamples : ℕ) (temperature : ℝ) : ℝ :=
  (numExamples : ℝ) ^ ((1 : ℝ) / temperature)

/-- `DEFAULT_MIX_RATE` binds the temperature argument to `DEFAULT_TEMPERATURE`
(tasks.py lines 30-31). -/
noncomputable def DEFAULT_MIX_RATE (numExamples : ℕ) : ℝ :=
  rate_num_examples numExamples DEFAULT_TEMPERATURE

/-! ## Vocabulary and output features (tasks.py lines 26, 33-40) -/

/-- `DEFAULT_SPM_PATH` (tasks.py line 26). -/
def DEFAULT_SPM_PATH : String :=
  "gs://t5-data/vocabs/mc4.250000.100extra/sentencepiece.model"

/-- A `sentencepiece_vocabulary.SentencePieceVocabulary`, identified by the
model file it is loaded from. -/
structure SentencePieceVocabulary where
  sentencepieceModelFile : String
deriving DecidableEq, Repr

/-- Modelled from the spec / the external `t5.data.Feature` API: a feature
holds a vocabulary and the flags `add_eos` and `required`; in the external
library both flags default to `True` when omitted. -/
structure Feature where
  vocabulary : SentencePieceVocabulary
  addEos : Bool := true
  required : Bool := true
deriving DecidableEq, Repr

/-- `DEFAULT_VOCAB` (tasks.py lines 33-34). -/
def DEFAULT_VOCAB : SentencePieceVocabulary := ⟨DEFAULT_SPM_PATH⟩

/-- The two named output features of every task (tasks.py lines 35-40):
`inputs` with `add_eos=True, required=False` and `targets` with
`add_eos=True` (and `required` left at its default `True`). -/
structure OutputFeatures where
  inputs : Feature
  targets : Feature
deriving DecidableEq, Repr

/-- `DEFAULT_OUTPUT_FEATURES` (tasks.py lines 35-40). -/
def DEFAULT_OUTPUT_FEATURES : OutputFeatures where
  inputs := { vocabulary := DEFAULT_VOCAB, addEos := true, required := false }
  targets := { vocabulary := DEFAULT_VOCAB, addEos := true }

/-! ## Language lists present in the source (tasks.py lines 49-59, 111-114, 222) -/

/-- `WIKI_LANGS` (tasks.py lines 49-59). -/
def WIKI_LANGS : List String := [
  "af", "an", "ar", "ast", "az", "azb", "ba", "bar", "be", "bg", "bn", "bpy",
  "br", "bs", "ca", "ce", "ceb", "cs", "cv", "cy", "da", "de", "el", "en",
  "es", "et", "eu", "fa", "fi", "fr", "fy", "ga", "gl", "gu", "he", "hi",
  "hr", "ht", "hu", "hy", "id", "io", "is", "it", "ja", "jv", "ka", "kk",
  "kn", "ko", "ky", "la", "lb", "lmo", "lt", "lv", "mg", "min", "mk", "ml",
  "mn", "mr", "ms", "my", "nds-nl", "ne", "new", "nl", "nn", "no", "oc",
  "pa", "pl", "pms", "pnb", "pt", "ro", "ru", "scn", "sco", "sh", "sk", "sl",
  "sq", "sr", "su", "sv", "sw", "ta", "te", "tg", "th", "tl", "tr", "tt",
  "uk", "ur", "uz", "vi", "vo", "war", "yo", "zh"]

/-- `XNLI_LANGS` (tasks.py lines 111-114). -/
def XNLI_LANGS : List String := [
  "ar", "bg", "de", "el", "en", "es", "fr", "hi", "ru", "sw", "th", "tr",
  "ur", "vi", "zh"]

/-- `TYDIQA_LANGS` (tasks.py line 222). -/
def TYDIQA_LANGS : List String :=
  ["ar", "bn", "en", "fi", "id", "ko", "ru", "sw", "te"]

/-! ## Name templating

Python's `lang.replace("-", "_")` substitutes every occurrence of the single
character `-`; on a one-character pattern this is exactly a character map. -/

/-- `lang.replace("-", "_")`. -/
def normLang (lang : String) : String :=
  String.mk (lang.data.map (fun c => if c = '-' then '_' else c))

/-- `"mc4.{}".format(lang.replace("-", "_"))` (tasks.py line 66). -/
def mc4Task (lang : String) : String := "mc4." ++ normLang lang

/-- `"wiki.{}".format(lang.replace("-", "_"))` (tasks.py line 84). -/
def wikiTask (lang : String) : String := "wiki." ++ normLang lang

/-- `"xnli_dev_test.{}".format(lang)` (tasks.py line 126). -/
def xnliTask (lang : String) : String := "xnli_dev_test." ++ lang

/-- `"pawsx_dev_test.{}".format(lang)` (tasks.py line 178). -/
def pawsxDevTask (lang : String) : String := "pawsx_dev_test." ++ lang

/-- `"pawsx_translate.{}".format(lang)` (tasks.py line 188). -/
def pawsxTransTask (lang : String) : String := "pawsx_translate." ++ lang

/-- `"tydiqa_dev.{}".format(lang)` (tasks.py line 235). -/
def tydiqaTask (lang : String) : String := "tydiqa_dev." ++ lang

/-- `"xquad_translate_train_dev.{}".format(lang)` (tasks.py line 263). -/
def xquadTdTask (lang : String) : String := "xquad_translate_train_dev." ++ lang

/-- `"xquad_test.{}".format(lang)` (tasks.py line 277). -/
def xquadTestTask (lang : String) : String := "xquad_test." ++ lang

/-! ## The registration sequence

`events` lists, in module load order, every `TaskRegistry.add` and
`MixtureRegistry.add` performed by tasks.py, parameterized by the four
language lists that are external to the source at hand. -/

/-- One registry call: a task registration (name and output features) or a
mixture registration (name and constituent task names). -/
inductive RegEvent where
  | task (name : String) (outputFeatures : OutputFeatures)
  | mixture (name : String) (tasks : List String)
deriving DecidableEq, Repr

/-- The full load-order registration sequence of tasks.py, with
`DEFAULT_OUTPUT_FEATURES` abbreviated by `D`. -/
def events (mc4L pawsxL xqTD xqT : List String) : List RegEvent :=
  let D := DEFAULT_OUTPUT_FEATURES
  (mc4L.map (fun l => .task (mc4Task l) D))
  ++ [.mixture "mc4" (mc4L.map mc4Task)]
  ++ (WIKI_LANGS.map (fun l => .task (wikiTask l) D))
  ++ [.mixture "wiki" (WIKI_LANGS.map wikiTask)]
  ++ [.mixture "mc4_wiki" (mc4L.map mc4Task ++ WIKI_LANGS.map wikiTask)]
  ++ [.task "xnli_train" D]
  ++ (XNLI_LANGS.map (fun l => .task (xnliTask l) D))
  ++ [.task "xnli_dev_test.all_langs" D]
  ++ [.mixture "xnli_zeroshot"
        (["xnli_train", "xnli_dev_test.all_langs"] ++ XNLI_LANGS.map xnliTask)]
  ++ [.task "paws" D]
  ++ (pawsxL.flatMap (fun l => [.task (pawsxDevTask l) D, .task (pawsxTransTask l) D]))
  ++ [.task "pawsx_dev_test.all_langs" D]
  ++ [.mixture "pawsx_zeroshot"
        (["paws", "pawsx_dev_test.all_langs"] ++ pawsxL.map pawsxDevTask)]
  ++ [.mixture "pawsx_translate"
        (pawsxL.map pawsxTransTask ++ ["pawsx_dev_test.all_langs"]
          ++ pawsxL.map pawsxDevTask)]
  ++ [.task "tydiqa_train_dev" D]
  ++ (TYDIQA_LANGS.map (fun l => .task (tydiqaTask l) D))
  ++ [.mixture "tydiqa" (["tydiqa_train_dev"] ++ TYDIQA_LANGS.map tydiqaTask)]
  ++ [.task "squad_train_dev" D]
  ++ (xqTD.map (fun l => .task (xquadTdTask l) D))
  ++ (xqT.map (fun l => .task (xquadTestTask l) D))
  ++ [.task "xquad_test.all_langs" D]
  ++ [.mixture "xquad_zeroshot"
        (["squad_train_dev", "xquad_test.all_langs"] ++ xqT.map xquadTestTask)]
  ++ [.mixture "xquad_translate"
        (xqTD.map xquadTdTask ++ ["squad_train_dev"] ++ ["xquad_test.all_langs"]
          ++ xqT.map xquadTestTask)]
  ++ [.task "snow" D]

/-- The task names of a registration sequence, in order. -/
def taskNamesOf (es : List RegEvent) : List String :=
  es.filterMap (fun e => match e with
    | .task n _ => some n
    | .mixture _ _ => none)

/-- Every mixture registration only references task names registered strictly
earlier: `seen` accumulates the task names registered so far. -/
def mixturesClosed : List RegEvent → List String → Prop
  | [], _ => True
  | .task n _ :: rest, seen => mixturesClosed rest (n :: seen)
  | .mixture _ ts :: rest, seen => (∀ t ∈ ts, t ∈ seen) ∧ mixturesClosed rest seen

/-! ## The custom `bleu` metric (tasks.py lines 316-336)

The module imports `tensorflow_datasets as tfds` (line 24) but never binds the
name `tf`; evaluating `tf.compat.as_text(x)` inside `bleu` therefore raises
`NameError` at call time. Python list comprehensions evaluate their body once
per element, so an empty list produces `[]` without touching `tf`. -/

/-- A Python exception raised while the modelled code runs. -/
inductive PyError where
  | nameError (name : String)
  | indexError
  | typeError
deriving DecidableEq, Repr

/-- A prediction/target entry as `bleu` receives it: a string, or a list of
strings (the multi-reference case distinguished by `isinstance(targets[0], list)`). -/
inductive PyVal where
  | str (s : String)
  | strList (l : List String)
deriving DecidableEq, Repr

/-- Evaluating `tf.compat.as_text(x)`: the name `tf` is unbound in the module,
so this raises `NameError` for every argument. -/
def tf_compat_as_text (_x : String) : Except PyError String :=
  .error (.nameError "tf")

/-- The sacrebleu `TOKENIZERS` table: a mutable map from language key to a
tokenizing function, threaded explicitly through the model. -/
def TokTable : Type := String → Option (String → String)

/-- `tokenizer_ja` (tasks.py lines 320-322): segment the text with the
external `LangJA` segmenter (a parameter here) and join with spaces. -/
def tokenizer_ja (segmenter : String → List String) (text : String) : String :=
  String.intercalate " " (segmenter text)

/-- The single import-time write `TOKENIZERS["ja"] = tokenizer_ja`
(tasks.py line 323). -/
def installJaTokenizer (segmenter : String → List String) (t : TokTable) :
    TokTable :=
  fun k => if k = "ja" then some (tokenizer_ja segmenter) else t k

/-- The keyword arguments tasks.py passes to `corpus_bleu` (lines 334-335):
`smooth_method="exp", smooth_value=0.0, force=False, lowercase=False,
tokenize="ja", use_effective_order=False`. -/
structure BleuArgs where
  smoothMethod : String
  smoothValue : ℚ
  force : Bool
  lowercase : Bool
  tokenize : String
  useEffectiveOrder : Bool
deriving DecidableEq, Repr

/-- The argument record used by `bleu`. -/
def bleuArgsUsed : BleuArgs :=
  { smoothMethod := "exp", smoothValue := 0, force := false,
    lowercase := false, tokenize := "ja", useEffectiveOrder := false }

/-- The object returned by sacrebleu's `corpus_bleu`; only its `score` field
is used. -/
structure BleuScore where
  score : ℝ

/-- The external `corpus_bleu` routine: it reads the tokenizer table and the
argument record and produces a score. Kept abstract as a parameter, since the
modelled code never actually reaches the call. -/
def CorpusBleuFn : Type :=
  TokTable → List String → List (List String) → BleuArgs → BleuScore

/-- `bleu` (tasks.py lines 325-336), with the tokenizer table threaded
explicitly. Faithful control flow: first the `predictions` comprehension,
then `targets[0]` (IndexError on an empty list), then the branch on
`isinstance(targets[0], list)`; `tf.compat.as_text` on a list raises
`TypeError`, and iterating a string iterates its characters. The body
contains no write to the tokenizer table, so it is returned unchanged. -/
def bleu (cb : CorpusBleuFn) (table : TokTable) (targets : List PyVal)
    (predictions : List String) :
    Except PyError (List (String × ℝ)) × TokTable :=
  (do
    let preds ← predictions.mapM tf_compat_as_text
    match targets with
    | [] => Except.error PyError.indexError
    | t0 :: _ => do
      let tgts ← match t0 with
        | .strList _ =>
          targets.mapM (fun t => match t with
            | .strList xs => xs.mapM tf_compat_as_text
            | .str s => s.data.mapM (fun c => tf_compat_as_text (String.mk [c])))
        | .str _ => do
          let simple ← targets.mapM (fun t => match t with
            | .str s => tf_compat_as_text s
            | .strList _ => Except.error PyError.typeError)
          pure [simple]
      let score := cb table preds tgts bleuArgsUsed
      pure [("bleu", score.score)],
   table)

/-! ## The `snow` task (tasks.py lines 338-354) -/

/-- `snow_tsv_path` (tasks.py lines 338-342). -/
def snow_tsv_path : List (String × String) := [
  ("train", "./snow_t15_23_train.tsv"),
  ("validation", "./snow_t15_23_dev.tsv"),
  ("test", "./snow_t15_23_test.tsv")]

/-- The configuration a `TextLineTask` registration carries: name, the
split-to-file mapping, the `parse_tsv` field names, and the output features. -/
structure TextLineTaskConfig where
  name : String
  splitToFilepattern : List (String × String)
  fieldNames : List String
  outputFeatures : OutputFeatures
deriving DecidableEq, Repr

/-- The `snow` task registration (tasks.py lines 344-354). -/
def snow : TextLineTaskConfig :=
  { name := "snow", splitToFilepattern := snow_tsv_path,
    fieldNames := ["inputs", "targets"],
    outputFeatures := DEFAULT_OUTPUT_FEATURES }

/-- Split a character list at every tab character. -/
def splitOnTab : List Char → List (List Char)
  | [] => [[]]
  | c :: rest =>
    if c = '\t' then [] :: splitOnTab rest
    else
      match splitOnTab rest with
      | [] => [[c]]
      | r :: rs => (c :: r) :: rs

/-- Modelled from the spec: `preprocessors.parse_tsv` is in the repository's
`preprocessors` module, which is not among the sources at hand; per the spec
it reads tab-separated lines "using a simple two-column schema (input text,
target text)", pairing the configured field names with the tab-separated
columns of each line. -/
def parse_tsv (fieldNames : List String) (line : String) :
    List (String × String) :=
  fieldNames.zip ((splitOnTab line.data).map String.mk)

/-! ## Theorems for the rate function -/

/-- C1: the default mixture rate with the configured temperature `T = 1/0.3`
maps an example count `n` with `0 < n` to the weight `n ^ 0.3`. -/
theorem c1_default_mix_rate_eval (n : ℕ) (hn : 0 < n) :
    DEFAULT_MIX_RATE n = (n : ℝ) ^ (0.3 : ℝ) := by
  have hT : (1 : ℝ) / DEFAULT_TEMPERATURE = (0.3 : ℝ) := by
    unfold DEFAULT_TEMPERATURE
    norm_num
  unfold DEFAULT_MIX_RATE rate_num_examples
  rw [hT]

/-- Witness for C1 at the concrete count `n = 2`. -/
theorem c1_default_mix_rate_eval_witness :
    0 < 2 ∧ DEFAULT_MIX_RATE 2 = ((2 : ℕ) : ℝ) ^ (0.3 : ℝ) :=
  ⟨by decide, c1_default_mix_rate_eval 2 (by decide)⟩

/-- C7: for every fixed positive temperature the rate function is monotone
non-decreasing in the example count. -/
theorem c7_rate_monotone (T : ℝ) (hT : 0 < T) (m n : ℕ) (hmn : m ≤ n) :
    rate_num_examples m T ≤ rate_num_examples n T := by
  unfold rate_num_examples
  apply Real.rpow_le_rpow
  · exact Nat.cast_nonneg m
  · exact_mod_cast hmn
  · positivity

/-- Witness for C7 at temperature `2` and counts `1 ≤ 3`. -/
theorem c7_rate_monotone_witness :
    (0 : ℝ) < 2 ∧ (1 : ℕ) ≤ 3 ∧ rate_num_examples 1 2 ≤ rate_num_examples 3 2 :=
  ⟨two_pos, by decide, c7_rate_monotone 2 two_pos 1 3 (by decide)⟩

/-! ## Theorems for the `bleu` metric -/

/-- C9: every call of `bleu` with a non-empty predictions list raises
`NameError` for the unbound name `tf` before any score is computed, whatever
the external scorer, the tokenizer table and the targets are. -/
theorem c9_bleu_raises_name_error (cb : CorpusBleuFn) (table : TokTable)
    (targets : List PyVal) (predictions : List String)
    (hne : predictions ≠ []) :
    (bleu cb table targets predictions).1
      = Except.error (PyError.nameError "tf") := by
  cases predictions with
  | nil => exact absurd rfl hne
  | cons p ps => rfl

/-- Witness for C9 at a concrete call. -/
theorem c9_bleu_raises_name_error_witness :
    (["hello"] : List String) ≠ [] ∧
      (bleu (fun _ _ _ _ => ⟨0⟩) (fun _ => none) [PyVal.str "hello"]
          ["hello"]).1
        = Except.error (PyError.nameError "tf") :=
  ⟨by decide,
    c9_bleu_raises_name_error (fun _ _ _ _ => ⟨0⟩) (fun _ => none)
      [PyVal.str "hello"] ["hello"] (by decide)⟩

/-- C2 (code bug): on the exact-match pair
`predictions = ["hello world"]`, `targets = ["hello world"]` the code does not
return the metric `{"bleu": 100}`; it raises `NameError` for the unbound name
`tf`, whatever the external scorer and tokenizer table. -/
theorem c2_bleu_exact_match_crashes (cb : CorpusBleuFn) (table : TokTable) :
    (bleu cb table [PyVal.str "hello world"] ["hello world"]).1
      = Except.error (PyError.nameError "tf") := rfl

/-- C3 (code bug): on a targets list whose first element is not a list, the
code never reaches the `corpus_bleu` call with the configured arguments; it
raises `NameError` for the unbound name `tf` first. -/
theorem c3_bleu_never_reaches_corpus_bleu (cb : CorpusBleuFn)
    (table : TokTable) :
    (bleu cb table [PyVal.str "green ideas"] ["colorless ideas"]).1
      = Except.error (PyError.nameError "tf") := rfl

/-- `tf.compat.as_text` as documented by TensorFlow: on a `str` argument it
returns the string unchanged. Used only to document what `bleu` would do were
the name `tf` bound. -/
def asTextIntended (x : String) : Except PyError String := pure x

/-- `bleu` with `tf.compat.as_text` behaving as intended (identity on
strings); the rest of the body is unchanged. -/
def bleuIntended (cb : CorpusBleuFn) (table : TokTable) (targets : List PyVal)
    (predictions : List String) :
    Except PyError (List (String × ℝ)) × TokTable :=
  (do
    let preds ← predictions.mapM asTextIntended
    match targets with
    | [] => Except.error PyError.indexError
    | t0 :: _ => do
      let tgts ← match t0 with
        | .strList _ =>
          targets.mapM (fun t => match t with
            | .strList xs => xs.mapM asTextIntended
            | .str s => s.data.mapM (fun c => asTextIntended (String.mk [c])))
        | .str _ => do
          let simple ← targets.mapM (fun t => match t with
            | .str s => asTextIntended s
            | .strList _ => Except.error PyError.typeError)
          pure [simple]
      let score := cb table preds tgts bleuArgsUsed
      pure [("bleu", score.score)],
   table)

/-- Supporting fact for the `tf` bug analysis: with the name `tf` repaired,
`bleu` on a single-reference targets list wraps the targets into one
reference stream and calls the scorer with exactly the configured arguments
`smooth_method="exp", smooth_value=0, force=False, lowercase=False,
tokenize="ja", use_effective_order=False`, returning the single metric
keyed `"bleu"`. -/
theorem bleuIntended_wraps_and_scores (cb : CorpusBleuFn) (table : TokTable) :
    (bleuIntended cb table [PyVal.str "green ideas"] ["colorless ideas"]).1
        = Except.ok [("bleu",
            (cb table ["colorless ideas"] [["green ideas"]]
              ⟨"exp", 0, false, false, "ja", false⟩).score)]
      ∧ bleuArgsUsed = ⟨"exp", 0, false, false, "ja", false⟩ :=
  ⟨rfl, rfl⟩

/-- C6: the import-time initialization writes the tokenizer table exactly at
the key `"ja"` (every other key reads back unchanged), and `bleu` returns the
tokenizer table it was given, unmodified. -/
theorem c6_tokenizer_table_frame :
    (∀ segmenter t, installJaTokenizer segmenter t "ja"
        = some (tokenizer_ja segmenter))
    ∧ (∀ segmenter t k, k ≠ "ja" → installJaTokenizer segmenter t k = t k)
    ∧ (∀ cb table targets predictions,
        (bleu cb table targets predictions).2 = table) := by
  refine ⟨fun segmenter t => ?_, fun segmenter t k hk => ?_,
    fun cb table targets predictions => rfl⟩
  · simp [installJaTokenizer]
  · simp [installJaTokenizer, hk]

/-- Witness for C6 at a concrete key distinct from `"ja"`. -/
theorem c6_tokenizer_table_frame_witness :
    ("en" : String) ≠ "ja" ∧
      installJaTokenizer (fun s => [s]) (fun _ => none) "en" = none :=
  ⟨by decide,
    c6_tokenizer_table_frame.2.1 (fun s => [s]) (fun _ => none) "en"
      (by decide)⟩

/-! ## Theorems on the registration sequence: mixture closure (C5) -/

@[simp]
theorem taskNamesOf_nil : taskNamesOf [] = [] := rfl

@[simp]
theorem taskNamesOf_cons_task (n : String) (F : OutputFeatures)
    (es : List RegEvent) :
    taskNamesOf (.task n F :: es) = n :: taskNamesOf es := rfl

@[simp]
theorem taskNamesOf_cons_mixture (m : String) (ts : List String)
    (es : List RegEvent) :
    taskNamesOf (.mixture m ts :: es) = taskNamesOf es := rfl

@[simp]
theorem taskNamesOf_append (xs ys : List RegEvent) :
    taskNamesOf (xs ++ ys) = taskNamesOf xs ++ taskNamesOf ys := by
  simp [taskNamesOf, List.filterMap_append]

@[simp]
theorem taskNamesOf_map_task (L : List String) (f : String → String)
    (F : OutputFeatures) :
    taskNamesOf (L.map (fun l => .task (f l) F)) = L.map f := by
  induction L with
  | nil => rfl
  | cons a as ih => simpa using ih

@[simp]
theorem taskNamesOf_flatMap_pair (L : List String) (f g : String → String)
    (F : OutputFeatures) :
    taskNamesOf (L.flatMap (fun l => [.task (f l) F, .task (g l) F]))
      = L.flatMap (fun l => [f l, g l]) := by
  induction L with
  | nil => rfl
  | cons a as ih => simpa using ih

@[simp]
theorem mixturesClosed_nil (seen : List String) :
    mixturesClosed [] seen ↔ True := Iff.rfl

@[simp]
theorem mixturesClosed_cons_task (n : String) (F : OutputFeatures)
    (es : List RegEvent) (seen : List String) :
    mixturesClosed (.task n F :: es) seen ↔ mixturesClosed es (n :: seen) :=
  Iff.rfl

@[simp]
theorem mixturesClosed_cons_mixture (m : String) (ts : List String)
    (es : List RegEvent) (seen : List String) :
    mixturesClosed (.mixture m ts :: es) seen
      ↔ (∀ t ∈ ts, t ∈ seen) ∧ mixturesClosed es seen := Iff.rfl

theorem mixturesClosed_append (xs ys : List RegEvent) (seen : List String) :
    mixturesClosed (xs ++ ys) seen
      ↔ mixturesClosed xs seen
        ∧ mixturesClosed ys ((taskNamesOf xs).reverse ++ seen) := by
  induction xs generalizing seen with
  | nil => simp
  | cons e rest ih =>
    cases e with
    | task n F => simp [ih]
    | mixture m ts => simp [ih, and_assoc]

@[simp]
theorem mixturesClosed_map_task (L : List String) (f : String → String)
    (F : OutputFeatures) (seen : List String) :
    mixturesClosed (L.map (fun l => .task (f l) F)) seen := by
  induction L generalizing seen with
  | nil => trivial
  | cons a as ih => exact ih _

@[simp]
theorem mixturesClosed_flatMap_pair (L : List String) (f g : String → String)
    (F : OutputFeatures) (seen : List String) :
    mixturesClosed (L.flatMap (fun l => [.task (f l) F, .task (g l) F]))
      seen := by
  induction L generalizing seen with
  | nil => trivial
  | cons a as ih => exact ih _

/-- C5: in every registration order produced by tasks.py — whatever the four
externally supplied language lists are — every mixture's constituent task
names were registered as tasks strictly earlier in load order. -/
theorem c5_mixtures_reference_prior_tasks (mc4L pawsxL xqTD xqT : List String) :
    mixturesClosed (events mc4L pawsxL xqTD xqT) [] := by
  simp [events, mixturesClosed_append]
  refine ⟨?_, ?_, ?_, ?_, ?_, ?_, ?_, ?_⟩ <;> aesop

/-! ## Theorems on the registration sequence: name uniqueness (C4)

Every task name is produced by one of eight templates (a fixed head followed
by a language code) or is one of nine fixed names. `fam` classifies a name by
the template head that produced it; names from different families can never
collide, so uniqueness reduces to per-family injectivity of the templates. -/

set_option maxRecDepth 16000

/-- Classify a character list by the template head it starts with:
`mc4.` ↦ 0, `pawsx_dev_test.` ↦ 1, `pawsx_translate.` ↦ 2,
`xquad_translate_train_dev.` ↦ 3, `xquad_test.` ↦ 4, anything else ↦ 5. -/
def famOf : List Char → Nat
  | 'm' :: 'c' :: '4' :: '.' :: _ => 0
  | 'p' :: 'a' :: 'w' :: 's' :: 'x' :: '_' :: 'd' :: 'e' :: 'v' :: '_' :: 't'
      :: 'e' :: 's' :: 't' :: '.' :: _ => 1
  | 'p' :: 'a' :: 'w' :: 's' :: 'x' :: '_' :: 't' :: 'r' :: 'a' :: 'n' :: 's'
      :: 'l' :: 'a' :: 't' :: 'e' :: '.' :: _ => 2
  | 'x' :: 'q' :: 'u' :: 'a' :: 'd' :: '_' :: 't' :: 'r' :: 'a' :: 'n' :: 's'
      :: 'l' :: 'a' :: 't' :: 'e' :: '_' :: 't' :: 'r' :: 'a' :: 'i' :: 'n'
      :: '_' :: 'd' :: 'e' :: 'v' :: '.' :: _ => 3
  | 'x' :: 'q' :: 'u' :: 'a' :: 'd' :: '_' :: 't' :: 'e' :: 's' :: 't' :: '.'
      :: _ => 4
  | _ => 5

/-- The family of a task name. -/
def fam (s : String) : Nat := famOf s.data

theorem string_data_append (s t : String) :
    (s ++ t).data = s.data ++ t.data := by
  cases s
  cases t
  rfl

theorem string_data_inj : ∀ {s t : String}, s.data = t.data → s = t := by
  intro s t h
  cases s
  cases t
  exact congrArg String.mk h

/-- Appending to a fixed head is left-cancellative on strings. -/
theorem str_app_cancel {p x y : String} (h : p ++ x = p ++ y) : x = y := by
  have hd : p.data ++ x.data = p.data ++ y.data := by
    rw [← string_data_append, ← string_data_append, h]
  exact string_data_inj (List.append_cancel_left hd)

theorem fam_mc4 (l : String) : fam (mc4Task l) = 0 := rfl

theorem fam_pawsxDev (l : String) : fam (pawsxDevTask l) = 1 := rfl

theorem fam_pawsxTrans (l : String) : fam (pawsxTransTask l) = 2 := rfl

theorem fam_xqTd (l : String) : fam (xquadTdTask l) = 3 := rfl

theorem fam_xqTest (l : String) : fam (xquadTestTask l) = 4 := rfl

/-- All task names registered by the module, in load order. -/
def allTaskNames (mc4L pawsxL xqTD xqT : List String) : List String :=
  taskNamesOf (events mc4L pawsxL xqTD xqT)

/-- The block of concretely known task names between the mC4 and the PAWS-X
per-language registrations. -/
def concreteSegA : List String :=
  WIKI_LANGS.map wikiTask ++ ["xnli_train"] ++ XNLI_LANGS.map xnliTask
    ++ ["xnli_dev_test.all_langs", "paws"]

/-- The block of concretely known task names between the PAWS-X and the
XQuAD per-language registrations. -/
def concreteSegB : List String :=
  ["pawsx_dev_test.all_langs", "tydiqa_train_dev"]
    ++ TYDIQA_LANGS.map tydiqaTask ++ ["squad_train_dev"]

/-- The concretely known task names registered after the XQuAD tasks. -/
def concreteSegC : List String := ["xquad_test.all_langs", "snow"]

theorem allTaskNames_shape (mc4L pawsxL xqTD xqT : List String) :
    allTaskNames mc4L pawsxL xqTD xqT
      = mc4L.map mc4Task
        ++ (concreteSegA
        ++ (pawsxL.flatMap (fun l => [pawsxDevTask l, pawsxTransTask l])
        ++ (concreteSegB
        ++ (xqTD.map xquadTdTask
        ++ (xqT.map xquadTestTask
        ++ concreteSegC))))) := by
  simp [allTaskNames, events, concreteSegA, concreteSegB, concreteSegC]

/-- Two name lists whose families are drawn from disjoint family sets are
disjoint. -/
theorem disjoint_by_fam {A B : List String} (fa fb : List Nat)
    (ha : ∀ a ∈ A, fam a ∈ fa) (hb : ∀ b ∈ B, fam b ∈ fb)
    (hne : ∀ x ∈ fa, x ∉ fb) : A.Disjoint B := by
  intro x hA hB
  exact hne _ (ha x hA) (hb x hB)

/-- The interleaved `pawsx_dev_test.{}` / `pawsx_translate.{}` registrations
over a duplicate-free language list carry pairwise distinct names. -/
theorem pawsx_pairs_nodup (L : List String) (hL : L.Nodup) :
    (L.flatMap (fun l => [pawsxDevTask l, pawsxTransTask l])).Nodup := by
  induction L with
  | nil => simp
  | cons a as ih =>
    obtain ⟨hnot, has⟩ := List.nodup_cons.mp hL
    rw [List.flatMap_cons, List.nodup_append]
    refine ⟨?_, ih has, ?_⟩
    · simp only [List.nodup_cons, List.mem_singleton, List.nodup_nil,
        and_true, List.not_mem_nil, not_false_iff]
      intro h
      have hf := congrArg fam h
      rw [fam_pawsxDev, fam_pawsxTrans] at hf
      exact absurd hf (by decide)
    · intro x hx hx2
      obtain ⟨b, hb, hxb⟩ := List.mem_flatMap.mp hx2
      simp only [List.mem_cons, List.mem_singleton, List.not_mem_nil,
        or_false] at hx hxb
      rcases hx with rfl | rfl <;> rcases hxb with h | h
      · exact hnot (str_app_cancel h ▸ hb)
      · have hf := congrArg fam h
        rw [fam_pawsxDev, fam_pawsxTrans] at hf
        exact absurd hf (by decide)
      · have hf := congrArg fam h
        rw [fam_pawsxDev, fam_pawsxTrans] at hf
        exact absurd hf (by decide)
      · exact hnot (str_app_cancel h ▸ hb)

/-- C4: name generation is injective on each language list — shown
concretely for the lists present in the source (`WIKI_LANGS` as the claim's
example) and for the external `MC4_LANGS` under the spec's own
normalization-injectivity obligation — and consequently all task names
registered by the module are pairwise distinct, for every instantiation of
the four external language lists that is duplicate-free after normalization
and avoids the reserved code `all_langs`. -/
theorem c4_task_names_distinct (mc4L pawsxL xqTD xqT : List String)
    (hmc4 : (mc4L.map normLang).Nodup)
    (hpawsx : pawsxL.Nodup) (hpawsxA : "all_langs" ∉ pawsxL)
    (hxqTD : xqTD.Nodup)
    (hxqT : xqT.Nodup) (hxqTA : "all_langs" ∉ xqT) :
    (∀ a ∈ WIKI_LANGS, ∀ b ∈ WIKI_LANGS, a ≠ b → wikiTask a ≠ wikiTask b)
    ∧ (∀ a ∈ mc4L, ∀ b ∈ mc4L, a ≠ b → mc4Task a ≠ mc4Task b)
    ∧ (allTaskNames mc4L pawsxL xqTD xqT).Nodup := by
  have hwiki : (WIKI_LANGS.map wikiTask).Nodup := by decide
  refine ⟨?_, ?_, ?_⟩
  · intro a ha b hb hne heq
    exact hne (List.inj_on_of_nodup_map hwiki ha hb heq)
  · intro a ha b hb hne heq
    exact hne (List.inj_on_of_nodup_map hmc4 ha hb (str_app_cancel heq))
  rw [allTaskNames_shape]
  have famS1 : ∀ a ∈ mc4L.map mc4Task, fam a ∈ ([0] : List Nat) := by
    intro a ha
    obtain ⟨l, -, rfl⟩ := List.mem_map.mp ha
    simp [fam_mc4]
  have famS6 : ∀ a ∈ pawsxL.flatMap (fun l => [pawsxDevTask l, pawsxTransTask l]),
      fam a ∈ ([1, 2] : List Nat) := by
    intro a ha
    obtain ⟨l, -, hl⟩ := List.mem_flatMap.mp ha
    simp only [List.mem_cons, List.mem_singleton, List.not_mem_nil,
      or_false] at hl
    rcases hl with rfl | rfl <;> simp [fam_pawsxDev, fam_pawsxTrans]
  have famS10 : ∀ a ∈ xqTD.map xquadTdTask, fam a ∈ ([3] : List Nat) := by
    intro a ha
    obtain ⟨l, -, rfl⟩ := List.mem_map.mp ha
    simp [fam_xqTd]
  have famS11 : ∀ a ∈ xqT.map xquadTestTask, fam a ∈ ([4] : List Nat) := by
    intro a ha
    obtain ⟨l, -, rfl⟩ := List.mem_map.mp ha
    simp [fam_xqTest]
  have famA : ∀ a ∈ concreteSegA, fam a ∈ ([5] : List Nat) := by decide
  have famB : ∀ a ∈ concreteSegB, fam a ∈ ([1, 5] : List Nat) := by decide
  have famC : ∀ a ∈ concreteSegC, fam a ∈ ([4, 5] : List Nat) := by decide
  have nodS1 : (mc4L.map mc4Task).Nodup := by
    have hrw : mc4L.map mc4Task
        = (mc4L.map normLang).map (fun s => "mc4." ++ s) := by
      rw [List.map_map]
      rfl
    rw [hrw]
    exact List.Nodup.map (fun x y h => str_app_cancel h) hmc4
  have nodS6 := pawsx_pairs_nodup pawsxL hpawsx
  have nodS10 : (xqTD.map xquadTdTask).Nodup :=
    List.Nodup.map (fun x y h => str_app_cancel h) hxqTD
  have nodS11 : (xqT.map xquadTestTask).Nodup :=
    List.Nodup.map (fun x y h => str_app_cancel h) hxqT
  have nodA : concreteSegA.Nodup := by decide
  have nodB : concreteSegB.Nodup := by decide
  have nodC : concreteSegC.Nodup := by decide
  have djS6B : (pawsxL.flatMap
      (fun l => [pawsxDevTask l, pawsxTransTask l])).Disjoint concreteSegB := by
    intro x hx hB
    obtain ⟨l, hl, hxl⟩ := List.mem_flatMap.mp hx
    simp only [List.mem_cons, List.mem_singleton, List.not_mem_nil,
      or_false] at hxl
    rcases hxl with rfl | rfl
    · have honly : ∀ b ∈ concreteSegB, fam b = 1
          → b = "pawsx_dev_test.all_langs" := by decide
      have heq : pawsxDevTask l = pawsxDevTask "all_langs" :=
        honly _ hB (fam_pawsxDev l)
      exact hpawsxA (str_app_cancel heq ▸ hl)
    · have hnone : ∀ b ∈ concreteSegB, fam b ≠ 2 := by decide
      exact hnone _ hB (fam_pawsxTrans l)
  have djS11C : (xqT.map xquadTestTask).Disjoint concreteSegC := by
    intro x hx hC
    obtain ⟨l, hl, rfl⟩ := List.mem_map.mp hx
    have honly : ∀ b ∈ concreteSegC, fam b = 4
        → b = "xquad_test.all_langs" := by decide
    have heq : xquadTestTask l = xquadTestTask "all_langs" :=
      honly _ hC (fam_xqTest l)
    exact hxqTA (str_app_cancel heq ▸ hl)
  have djAB : concreteSegA.Disjoint concreteSegB :=
    List.disjoint_left.mpr (by decide)
  have djAC : concreteSegA.Disjoint concreteSegC :=
    List.disjoint_left.mpr (by decide)
  have djBC : concreteSegB.Disjoint concreteSegC :=
    List.disjoint_left.mpr (by decide)
  simp only [List.nodup_append, List.disjoint_append_right]
  exact ⟨nodS1,
    ⟨nodA,
      ⟨nodS6,
        ⟨nodB,
          ⟨nodS10,
            ⟨nodS11, nodC, djS11C⟩,
            disjoint_by_fam [3] [4] famS10 famS11 (by decide),
            disjoint_by_fam [3] [4, 5] famS10 famC (by decide)⟩,
          disjoint_by_fam [1, 5] [3] famB famS10 (by decide),
          disjoint_by_fam [1, 5] [4] famB famS11 (by decide),
          djBC⟩,
        djS6B,
        disjoint_by_fam [1, 2] [3] famS6 famS10 (by decide),
        disjoint_by_fam [1, 2] [4] famS6 famS11 (by decide),
        disjoint_by_fam [1, 2] [4, 5] famS6 famC (by decide)⟩,
      disjoint_by_fam [5] [1, 2] famA famS6 (by decide),
      djAB,
      disjoint_by_fam [5] [3] famA famS10 (by decide),
      disjoint_by_fam [5] [4] famA famS11 (by decide),
      djAC⟩,
    disjoint_by_fam [0] [5] famS1 famA (by decide),
    disjoint_by_fam [0] [1, 2] famS1 famS6 (by decide),
    disjoint_by_fam [0] [1, 5] famS1 famB (by decide),
    disjoint_by_fam [0] [3] famS1 famS10 (by decide),
    disjoint_by_fam [0] [4] famS1 famS11 (by decide),
    disjoint_by_fam [0] [4, 5] famS1 famC (by decide)⟩

/-- Witness for C4 at small concrete instantiations of the four external
language lists. -/
theorem c4_task_names_distinct_witness :
    ((["en", "zh-Latn"].map normLang).Nodup
      ∧ (["de", "ja"] : List String).Nodup
      ∧ "all_langs" ∉ (["de", "ja"] : List String)
      ∧ (["el"] : List String).Nodup
      ∧ (["el", "en"] : List String).Nodup
      ∧ "all_langs" ∉ (["el", "en"] : List String))
    ∧ (allTaskNames ["en", "zh-Latn"] ["de", "ja"] ["el"] ["el", "en"]).Nodup :=
  ⟨by decide,
    (c4_task_names_distinct ["en", "zh-Latn"] ["de", "ja"] ["el"] ["el", "en"]
      (by decide) (by decide) (by decide) (by decide) (by decide)
      (by decide)).2.2⟩

/-! ## Theorems on the registration sequence: output features (C10) -/

/-- C10: in every registration order produced by tasks.py — whatever the four
externally supplied language lists are — every registered task carries the
single schema `DEFAULT_OUTPUT_FEATURES`, whose `inputs` and `targets`
features share one vocabulary, both add EOS, and of which only `targets` is
required. -/
theorem c10_default_output_features :
    (∀ mc4L pawsxL xqTD xqT n F,
        RegEvent.task n F ∈ events mc4L pawsxL xqTD xqT →
          F = DEFAULT_OUTPUT_FEATURES)
    ∧ DEFAULT_OUTPUT_FEATURES.inputs.vocabulary
        = DEFAULT_OUTPUT_FEATURES.targets.vocabulary
    ∧ DEFAULT_OUTPUT_FEATURES.inputs.addEos = true
    ∧ DEFAULT_OUTPUT_FEATURES.targets.addEos = true
    ∧ DEFAULT_OUTPUT_FEATURES.inputs.required = false
    ∧ DEFAULT_OUTPUT_FEATURES.targets.required = true := by
  refine ⟨?_, rfl, rfl, rfl, rfl, rfl⟩
  intro mc4L pawsxL xqTD xqT n F h
  simp [events] at h
  aesop

/-- Witness for C10: the `snow` task in a concrete instantiation of the
external language lists. -/
theorem c10_default_output_features_witness :
    RegEvent.task "snow" DEFAULT_OUTPUT_FEATURES ∈ events [] [] [] []
    ∧ DEFAULT_OUTPUT_FEATURES = DEFAULT_OUTPUT_FEATURES :=
  ⟨by simp [events],
    c10_default_output_features.1 [] [] [] [] "snow" DEFAULT_OUTPUT_FEATURES
      (by simp [events])⟩

/-! ## Theorems for the `snow` task -/

/-- C8: the `snow` task maps exactly the three splits `train`, `validation`
and `test` to the three fixed local tsv files, and its line preprocessor is
configured with the two field names `inputs` and `targets` in that order, so
a two-column line parses into those two named fields. -/
theorem c8_snow_config :
    snow.splitToFilepattern
        = [("train", "./snow_t15_23_train.tsv"),
           ("validation", "./snow_t15_23_dev.tsv"),
           ("test", "./snow_t15_23_test.tsv")]
    ∧ snow.splitToFilepattern.map Prod.fst = ["train", "validation", "test"]
    ∧ snow.fieldNames = ["inputs", "targets"]
    ∧ parse_tsv snow.fieldNames "colorless ideas\tgreen dreams"
        = [("inputs", "colorless ideas"), ("targets", "green dreams")] := by
  refine ⟨rfl, rfl, rfl, ?_⟩
  decide
